import Mathlib

/-!
Verification development for the SignalFlow agent-orchestration core
(src/backend/src/agents): a shallow embedding in Lean 4 of the data model
(`core/types.py`), the agent base classes (`core/base.py`), the result
extraction of the strategy agents (`implementations/strategy_analyzer.py`),
the tool registry (`tools/base.py`), the agent factory (`core/factory.py`)
and the parallel fan-out node of the workflow engine
(`workflows/engine.py`), together with theorems settling the frozen claims
about these components.

Python effects are made explicit: a computation that may raise is a
`PyResult`; the two exception channels the code distinguishes (`AgentError`
and every other `Exception`) are separate constructors.  External
capabilities (the LLM, the tools) enter as oracle functions, matching the
spec's "injected capability" treatment.  Python dicts are association
lists with first-key-wins lookup and in-place update, mirroring dict
semantics on the unique-key dicts the code builds.
-/

/-- Outcome of a Python computation: a normal return, a raised `AgentError`
(code plus message), or any other raised exception (message only).  The
source handles the two exception channels differently
(`except AgentError: raise` vs `except Exception as e: ...` in
`BaseAgent.run`), hence the two distinct constructors. -/
inductive PyResult (α : Type) where
  | ok : α → PyResult α
  | agentError : String → String → PyResult α
  | exn : String → PyResult α
  deriving DecidableEq, Repr

/-- `AgentErrorCode` values from `core/types.py` (string enum); we keep them
as the literal strings the enum carries so that `PyResult.agentError` can
store the code directly. -/
def AgentErrorCode.LLM_ERROR : String := "LLM_ERROR"

def AgentErrorCode.MAX_ITERATIONS_EXCEEDED : String := "MAX_ITERATIONS_EXCEEDED"

def AgentErrorCode.INVALID_INPUT : String := "INVALID_INPUT"

def AgentErrorCode.TOOL_EXECUTION_FAILED : String := "TOOL_EXECUTION_FAILED"

def AgentErrorCode.AGENT_NOT_FOUND : String := "AGENT_NOT_FOUND"

def AgentErrorCode.AGENT_INITIALIZATION_FAILED : String := "AGENT_INITIALIZATION_FAILED"

/-- JSON values, with numbers as rationals (both Python ints and floats of
`json.loads` are modelled as `ℚ`). -/
inductive Json where
  | null : Json
  | bool : Bool → Json
  | num : ℚ → Json
  | str : String → Json
  | arr : List Json → Json
  | obj : List (String × Json) → Json

/-- Python `d.get(k)` on a dict modelled as an association list: first
binding wins (the dicts the code builds have unique keys). -/
def aget {α : Type} (d : List (String × α)) (k : String) : Option α :=
  (d.find? (fun p => p.1 == k)).map (·.2)

/-- Python `d[k] = v`: replace the first binding of `k` in place, else
append a new binding (dict insertion order). -/
def aset {α : Type} (d : List (String × α)) (k : String) (v : α) :
    List (String × α) :=
  match d with
  | [] => [(k, v)]
  | (k₀, v₀) :: rest =>
      if k₀ == k then (k, v) :: rest else (k₀, v₀) :: aset rest k v

/-- Python `d.update(d2)`: set every binding of `d2` into `d` in order. -/
def aupdate {α : Type} (d d₂ : List (String × α)) : List (String × α) :=
  d₂.foldl (fun acc p => aset acc p.1 p.2) d

/-- Python `k in d`. -/
def ahas {α : Type} (d : List (String × α)) (k : String) : Bool :=
  (aget d k).isSome

/-- Find the first occurrence of (non-empty) `sep`: the part before it and
the part after it. -/
def findSep (sep : List Char) : List Char → Option (List Char × List Char)
  | [] => none
  | c :: cs =>
      if List.isPrefixOf sep (c :: cs) then some ([], (c :: cs).drop sep.length)
      else (findSep sep cs).map (fun p => (c :: p.1, p.2))

/-- Python `s.split(sep)` for a non-empty separator, as fuel-indexed
left-to-right non-overlapping splitting (the fuel `|s| + 1` always
suffices because each found separator consumes at least one character). -/
def pySplitGo (sep : List Char) : ℕ → List Char → List (List Char)
  | 0, cs => [cs]
  | fuel + 1, cs =>
      match findSep sep cs with
      | none => [cs]
      | some (before, after) => before :: pySplitGo sep fuel after

/-- Python `s.split(sep)` (the source only splits on the non-empty
separators ` ``` ` and ` ```json `). -/
def pySplit (s sep : String) : List String :=
  (pySplitGo sep.data (s.length + 1) s.data).map (fun l => String.mk l)

/-- Python `str.isspace` on one character (the `str.strip` whitespace
set). -/
def pyIsSpace (c : Char) : Bool :=
  c == ' ' || c == '\t' || c == '\n' || c == '\r' || c == '\x0b' || c == '\x0c'

/-- Python `s.strip()`. -/
def pyStrip (s : String) : String :=
  String.mk (((s.data.dropWhile pyIsSpace).reverse.dropWhile pyIsSpace).reverse)

/-- Python `sub in s` for strings (the separator occurs iff the split has
at least two parts). -/
def containsSub (s sub : String) : Bool :=
  (pySplit s sub).length ≥ 2

/-- Python `result.get(k, default)` restricted to objects (used only where
the code has already established the value is a dict). -/
def Json.oget (j : Json) (k : String) (dflt : Json) : Json :=
  match j with
  | .obj kvs => (aget kvs k).getD dflt
  | _ => dflt

namespace JsonLoads

/-!
Model of the standard library call `json.loads` (strict JSON parsing) on
the JSON subset the agent layer exchanges: `null` / `true` / `false`,
decimal numbers with optional sign and fraction, strings with the plain
`\"` and `\\` escapes, arrays and objects.  Parsing is fuel-indexed
recursive descent over the character list; `none` models
`json.JSONDecodeError`.
-/

/-- Skip JSON whitespace. -/
def skipWs : List Char → List Char
  | [] => []
  | c :: cs =>
      if c = ' ' ∨ c = '\n' ∨ c = '\t' ∨ c = '\r' then skipWs cs else c :: cs

/-- Parse the body of a JSON string after the opening quote. -/
def parseStr : List Char → Option (String × List Char)
  | [] => none
  | '"' :: cs => some ("", cs)
  | '\\' :: e :: cs =>
      match e with
      | '"' => (parseStr cs).map (fun p => ("\"" ++ p.1, p.2))
      | '\\' => (parseStr cs).map (fun p => ("\\" ++ p.1, p.2))
      | '/' => (parseStr cs).map (fun p => ("/" ++ p.1, p.2))
      | 'n' => (parseStr cs).map (fun p => ("\n" ++ p.1, p.2))
      | 't' => (parseStr cs).map (fun p => ("\t" ++ p.1, p.2))
      | 'r' => (parseStr cs).map (fun p => ("\r" ++ p.1, p.2))
      | _ => none
  | c :: cs => (parseStr cs).map (fun p => (String.mk [c] ++ p.1, p.2))

/-- Longest digit run at the head of the input, as value-and-count. -/
def parseDigits : List Char → ℕ × ℕ × List Char
  | [] => (0, 0, [])
  | c :: cs =>
      if c.isDigit then
        let r := parseDigits cs
        ((c.toNat - 48) * 10 ^ r.2.1 + r.1, r.2.1 + 1, r.2.2)
      else (0, 0, c :: cs)

/-- Parse a JSON number (optional minus, digits, optional fraction). -/
def parseNum (cs : List Char) : Option (ℚ × List Char) :=
  let (neg, cs₁) :=
    match cs with
    | '-' :: rest => (true, rest)
    | _ => (false, cs)
  let (ip, ic, cs₂) := parseDigits cs₁
  if ic = 0 then none
  else
    let (q, rest) :=
      match cs₂ with
      | '.' :: csf =>
          let (fp, fc, cs₃) := parseDigits csf
          if fc = 0 then ((ip : ℚ), '.' :: csf)
          else ((ip : ℚ) + (fp : ℚ) / 10 ^ fc, cs₃)
      | _ => ((ip : ℚ), cs₂)
    some (if neg then -q else q, rest)

mutual

/-- Parse one JSON value. -/
def parseVal : ℕ → List Char → Option (Json × List Char)
  | 0, _ => none
  | fuel + 1, cs =>
      match skipWs cs with
      | 'n' :: 'u' :: 'l' :: 'l' :: rest => some (.null, rest)
      | 't' :: 'r' :: 'u' :: 'e' :: rest => some (.bool true, rest)
      | 'f' :: 'a' :: 'l' :: 's' :: 'e' :: rest => some (.bool false, rest)
      | '"' :: rest => (parseStr rest).map (fun p => (.str p.1, p.2))
      | '[' :: rest =>
          (match skipWs rest with
           | ']' :: rest₂ => some (.arr [], rest₂)
           | cs₂ => (parseItems fuel cs₂).map (fun p => (.arr p.1, p.2)))
      | '\x7b' :: rest =>
          (match skipWs rest with
           | '\x7d' :: rest₂ => some (.obj [], rest₂)
           | cs₂ => (parseMembers fuel cs₂).map (fun p => (.obj p.1, p.2)))
      | cs₂ => (parseNum cs₂).map (fun p => (.num p.1, p.2))

/-- Parse comma-separated array items up to the closing bracket. -/
def parseItems : ℕ → List Char → Option (List Json × List Char)
  | 0, _ => none
  | fuel + 1, cs =>
      match parseVal fuel cs with
      | none => none
      | some (v, rest) =>
          match skipWs rest with
          | ',' :: rest₂ =>
              (parseItems fuel rest₂).map (fun p => (v :: p.1, p.2))
          | ']' :: rest₂ => some ([v], rest₂)
          | _ => none

/-- Parse comma-separated object members up to the closing brace. -/
def parseMembers : ℕ → List Char → Option (List (String × Json) × List Char)
  | 0, _ => none
  | fuel + 1, cs =>
      match skipWs cs with
      | '"' :: rest =>
          match parseStr rest with
          | none => none
          | some (k, rest₂) =>
              match skipWs rest₂ with
              | ':' :: rest₃ =>
                  match parseVal fuel rest₃ with
                  | none => none
                  | some (v, rest₄) =>
                      match skipWs rest₄ with
                      | ',' :: rest₅ =>
                          (parseMembers fuel rest₅).map
                            (fun p => ((k, v) :: p.1, p.2))
                      | '\x7d' :: rest₅ => some ([(k, v)], rest₅)
                      | _ => none
              | _ => none
      | _ => none

end

end JsonLoads

/-- Model of Python's `json.loads`: parse one value, require only
whitespace to remain, `none` on `json.JSONDecodeError`. -/
def json_loads (s : String) : Option Json :=
  match JsonLoads.parseVal (s.length + 2) s.data with
  | some (v, rest) => if JsonLoads.skipWs rest = [] then some v else none
  | none => none

example : json_loads "[]" = some (.arr []) := by rfl

example : json_loads " \x7b\"plan\": []\x7d " = some (.obj [("plan", .arr [])]) := by
  rfl

example : json_loads "\x7b\"decision\": \"buy\"\x7d" =
    some (.obj [("decision", .str "buy")]) := by rfl

example : json_loads "not json" = none := by rfl

/-! ### `core/types.py`: enums, `Decision`, `AgentConfig`, inputs/outputs -/

/-- `AgentType` (string enum in `core/types.py`). -/
inductive AgentType where
  | STRATEGY_ANALYZER | RISK_ASSESSOR | SIGNAL_GENERATOR
  | DATA_COLLECTOR | DATA_ANALYZER
  | ORCHESTRATOR | SUPERVISOR
  | TECHNICAL_ANALYST | FUNDAMENTAL_ANALYST | SENTIMENT_ANALYST | NEWS_ANALYST
  deriving DecidableEq, Repr

/-- `AgentStatus` (string enum in `core/types.py`). -/
inductive AgentStatus where
  | IDLE | RUNNING | WAITING | COMPLETED | FAILED | TIMEOUT
  deriving DecidableEq, Repr

/-- `DecisionType` (string enum in `core/types.py`). -/
inductive DecisionType where
  | BUY | SELL | HOLD | OBSERVE | ALERT
  deriving DecidableEq, Repr

/-- `ConfidenceLevel` (string enum in `core/types.py`). -/
inductive ConfidenceLevel where
  | VERY_HIGH | HIGH | MEDIUM | LOW | VERY_LOW
  deriving DecidableEq, Repr

/-- The `Decision` dataclass (`core/types.py`), without the creation
timestamp (real time is outside the model).  `confidence`, `reasoning`,
`risk_factors` and `recommended_action` keep the raw value the constructor
received (Python stores whatever the JSON carried); `supporting_data` is
the tool-results dict the extraction passes in. -/
structure Decision where
  decision_type : DecisionType
  symbol : Json
  confidence : Json
  reasoning : Json
  risk_factors : Json
  supporting_data : List (String × String) := []
  recommended_action : Json

/-- The tier chain of `Decision.confidence_level` on a numeric confidence,
with the literals of the source (`0.9`, `0.75`, `0.5`, `0.25`). -/
def confidenceTier (c : ℚ) : ConfidenceLevel :=
  if (0.9 : ℚ) ≤ c then .VERY_HIGH
  else if (0.75 : ℚ) ≤ c then .HIGH
  else if (0.5 : ℚ) ≤ c then .MEDIUM
  else if (0.25 : ℚ) ≤ c then .LOW
  else .VERY_LOW

/-- `Decision.confidence_level` (`core/types.py` lines 189-201):
`self.confidence >= 0.9` and the following comparisons.  A numeric
confidence goes through the tier chain; a Python `bool` compares as its
integer value; any other stored value makes `>=` against a float raise
`TypeError`. -/
def Decision.confidence_level (d : Decision) : PyResult ConfidenceLevel :=
  match d.confidence with
  | .num c => .ok (confidenceTier c)
  | .bool b => .ok (confidenceTier (if b then 1 else 0))
  | _ => .exn "TypeError: comparison not supported"

/-- `AgentConfig` (`core/types.py`), without `extra_config`. -/
structure AgentConfig where
  agent_id : String
  agent_type : AgentType
  name : String
  description : String := ""
  model_name : String := "qwen3-max"
  temperature : ℚ := (0.7 : ℚ)
  max_tokens : ℕ := 4096
  max_retries : ℕ := 3
  timeout_seconds : ℕ := 120
  max_iterations : ℕ := 10
  allowed_tools : List String := []
  system_prompt : String := ""

/-- `AgentInput` (`core/types.py`), without the timestamp. -/
structure AgentInput where
  task_id : String
  task_type : String
  content : Json
  context : Json := .obj []
  metadata : Json := .obj []

/-- `AgentOutput` (`core/types.py`), without timestamp / execution time /
token usage (wall-clock data is outside the model).  The result payload is
type-parametric because each agent shape returns its own result record;
`none` models the `Failed` path's default empty result. -/
structure AgentOutput (ρ : Type) where
  task_id : String
  agent_id : String
  agent_type : AgentType
  status : AgentStatus
  result : Option ρ
  decisions : List Decision
  error : Option String

/-- A tool-call request carried on an assistant message
(`response.tool_calls` entries: `name`, `id`, `args`). -/
structure ToolCallReq where
  name : String
  id : String
  args : Json

/-- An assistant (`AIMessage`) response: text content plus tool-call
requests. -/
structure AIMsg where
  content : String
  tool_calls : List ToolCallReq := []

/-- Message history entries (`langchain` message classes as the code uses
them). -/
inductive Message where
  | system (content : String)
  | human (content : String)
  | ai (msg : AIMsg)
  | tool (content : String) (tool_call_id : String)

mutual

/-- Rendering of a JSON-modelled Python value, standing in for the `str()`
interpolation the source uses when building prompt text.  No claim reads
these strings; they only keep message construction total. -/
def Json.render : Json → String
  | .null => "None"
  | .bool true => "True"
  | .bool false => "False"
  | .num q => toString q
  | .str s => "'" ++ s ++ "'"
  | .arr xs => "[" ++ Json.renderItems xs ++ "]"
  | .obj kvs => "\x7b" ++ Json.renderMembers kvs ++ "\x7d"

def Json.renderItems : List Json → String
  | [] => ""
  | [x] => Json.render x
  | x :: xs => Json.render x ++ ", " ++ Json.renderItems xs

def Json.renderMembers : List (String × Json) → String
  | [] => ""
  | [(k, v)] => "'" ++ k ++ "': " ++ Json.render v
  | (k, v) :: kvs =>
      "'" ++ k ++ "': " ++ Json.render v ++ ", " ++ Json.renderMembers kvs

end

/-! ### `core/base.py`: `BaseAgent`, the ReAct loop, `PlanAndExecuteAgent` -/

/-- The agent-layer `AgentState` as `BaseAgent._prepare_initial_state`
populates it (every key set, so the record is total; the raw-dict view only
matters in the workflow layer, which has its own model below). -/
structure AgentState where
  messages : List Message
  task_id : String
  task_type : String
  task_input : Json
  current_agent : String
  agent_outputs : List (String × Json) := []
  agent_errors : List (String × String) := []
  tool_results : List (String × String) := []
  decisions : List Json := []
  final_decision : Option Json := none
  metadata : Json := .obj []
  iteration_count : ℕ
  max_iterations : ℕ
  should_end : Bool

/-- `BaseAgent.system_prompt`: `self.config.system_prompt or
self.default_system_prompt` (empty string is falsy). -/
def BaseAgent.system_prompt (cfg : AgentConfig) (default_system_prompt : String) :
    String :=
  if cfg.system_prompt ≠ "" then cfg.system_prompt else default_system_prompt

/-- `BaseAgent._format_task_message`. -/
def BaseAgent.format_task_message (inp : AgentInput) : String :=
  "任务类型: " ++ inp.task_type ++ "\n任务内容: " ++ inp.content.render ++
    "\n上下文: " ++ inp.context.render

/-- `BaseAgent._prepare_initial_state`: optional system message, then the
formatted task message; counters zeroed, `max_iterations` from the config. -/
def BaseAgent.prepare_initial_state (cfg : AgentConfig)
    (default_system_prompt : String) (inp : AgentInput) : AgentState :=
  let prompt := BaseAgent.system_prompt cfg default_system_prompt
  { messages :=
      (if prompt ≠ "" then [Message.system prompt] else []) ++
        [Message.human (BaseAgent.format_task_message inp)]
    task_id := inp.task_id
    task_type := inp.task_type
    task_input := inp.content
    current_agent := cfg.agent_id
    metadata := inp.metadata
    iteration_count := 0
    max_iterations := cfg.max_iterations
    should_end := false }

/-- `BaseAgent.run` (`core/base.py` lines 81-127), parametric in the
subclass's `execute` body.  The `try` body validates, prepares state, runs
`execute` and builds the `Completed` output; `except AgentError: raise`
re-raises the typed channel unchanged; `except Exception` converts any
other exception into a `Failed`-status output. -/
def BaseAgent.run {ρ : Type} (agent_type : AgentType)
    (default_system_prompt : String) (cfg : AgentConfig)
    (execute : AgentState → AgentInput → PyResult (ρ × List Decision))
    (inp : AgentInput) : PyResult (AgentOutput ρ) :=
  let body : PyResult (AgentOutput ρ) :=
    if inp.task_id = "" then
      .agentError AgentErrorCode.INVALID_INPUT "Task ID is required"
    else
      match execute (BaseAgent.prepare_initial_state cfg default_system_prompt inp)
          inp with
      | .ok (result, decisions) =>
          .ok { task_id := inp.task_id, agent_id := cfg.agent_id,
                agent_type := agent_type, status := .COMPLETED,
                result := some result, decisions := decisions, error := none }
      | .agentError c m => .agentError c m
      | .exn m => .exn m
  match body with
  | .ok out => .ok out
  | .agentError c m => .agentError c m
  | .exn m =>
      .ok { task_id := inp.task_id, agent_id := cfg.agent_id,
            agent_type := agent_type, status := .FAILED,
            result := none, decisions := [], error := some m }

/-- `BaseAgent.invoke_llm`'s retry loop (`for attempt in
range(max_retries)`), as structural recursion on the remaining attempts,
with the invariant `attempt + fuel = max_retries`; the zero-fuel case is
the loop running off its range, which raises `LLMError` wrapping the last
underlying error.  `ainvoke` is the injected model call, indexed by attempt
number; the second component records the `asyncio.sleep` backoff values
`(2 ** attempt) * 0.5` in order. -/
def invokeLlmGo (ainvoke : ℕ → Except String AIMsg) (max_retries : ℕ) :
    ℕ → ℕ → Option String → PyResult AIMsg × List ℚ
  | _attempt, 0, lastErr =>
      (.agentError AgentErrorCode.LLM_ERROR
          ("LLM invocation failed after " ++ toString max_retries ++
            " attempts: " ++ lastErr.getD "None"),
        [])
  | attempt, fuel + 1, _lastErr =>
      match ainvoke attempt with
      | .ok r => (.ok r, [])
      | .error e =>
          let rest := invokeLlmGo ainvoke max_retries (attempt + 1) fuel (some e)
          if attempt < max_retries - 1 then
            (rest.1, (2 : ℚ) ^ attempt * (0.5 : ℚ) :: rest.2)
          else (rest.1, rest.2)

/-- `BaseAgent.invoke_llm` (`core/base.py` lines 197-237). -/
def BaseAgent.invoke_llm (ainvoke : ℕ → Except String AIMsg)
    (max_retries : ℕ) : PyResult AIMsg × List ℚ :=
  invokeLlmGo ainvoke max_retries 0 max_retries none

/-- `BaseAgent.execute_tool`: look the tool up by name (raising
`ToolExecutionFailed` on a miss), invoke it, and wrap invocation errors
with the same code.  A tool is an injected invocable `Json → Except String
String` (result text or exception text). -/
def BaseAgent.execute_tool (tools : List (String × (Json → Except String String)))
    (tool_name : String) (arguments : Json) : PyResult String :=
  match aget tools tool_name with
  | none =>
      .agentError AgentErrorCode.TOOL_EXECUTION_FAILED
        ("Tool '" ++ tool_name ++ "' not found")
  | some f =>
      match f arguments with
      | .ok r => .ok r
      | .error e =>
          .agentError AgentErrorCode.TOOL_EXECUTION_FAILED
            ("Tool '" ++ tool_name ++ "' execution failed: " ++ e)

/-- `ReActAgent._execute_tool_calls`: run the round's calls in order,
substituting `"Error: ..."` for a call that raised `AgentError` (the only
channel `execute_tool` raises on, so the round always completes). -/
def ReActAgent.execute_tool_calls
    (tools : List (String × (Json → Except String String))) :
    List ToolCallReq → List String
  | [] => []
  | tc :: rest =>
      (match BaseAgent.execute_tool tools tc.name tc.args with
        | .ok r => r
        | .agentError _ m => "Error: " ++ m
        | .exn m => "Error: " ++ m) ::
        ReActAgent.execute_tool_calls tools rest

/-- The `final_result` record the ReAct loop returns: last message text,
accumulated tool results, iteration count. -/
structure ReActResult where
  response : String
  tool_results : List (String × String)
  iteration_count : ℕ
  deriving DecidableEq, Repr

/-- `current_state["messages"][-1].content if messages else ""`. -/
def lastContent (msgs : List Message) : String :=
  match msgs.getLast? with
  | some (.system c) => c
  | some (.human c) => c
  | some (.ai m) => m.content
  | some (.tool c _) => c
  | none => ""

/-- `ReActAgent.execute`'s `while not should_end` loop (`core/base.py`
lines 291-362), as structural recursion on remaining-iterations fuel (the
wrapper passes `max_iterations + 1 - iteration_count`, which the iteration
guard keeps positive; the zero-fuel branch is unreachable from the
wrapper).  `llm` gives the outcome of `invoke_llm` for the iteration with
the given count; `extract` is the subclass's `extract_result`. -/
def ReActAgent.executeFuel (llm : ℕ → PyResult AIMsg)
    (tools : List (String × (Json → Except String String)))
    (extract : AIMsg → AgentState → PyResult (Json × List Decision)) :
    ℕ → AgentState → List Decision → PyResult (ReActResult × List Decision)
  | 0, _, _ => .exn "loop fuel exhausted below the iteration guard"
  | fuel + 1, st, decisions =>
      if st.should_end then
        .ok (⟨lastContent st.messages, st.tool_results, st.iteration_count⟩,
          decisions)
      else if st.max_iterations ≤ st.iteration_count then
        .agentError AgentErrorCode.MAX_ITERATIONS_EXCEEDED
          ("Max iterations (" ++ toString st.max_iterations ++ ") exceeded")
      else
        match llm st.iteration_count with
        | .agentError c m => .agentError c m
        | .exn m => .exn m
        | .ok response =>
            let newMessages := st.messages ++ [Message.ai response]
            if response.tool_calls.isEmpty then
              match extract response st with
              | .agentError c m => .agentError c m
              | .exn m => .exn m
              | .ok (_result, extracted) =>
                  ReActAgent.executeFuel llm tools extract fuel
                    { st with
                      messages := newMessages
                      should_end := true
                      iteration_count := st.iteration_count + 1 }
                    (decisions ++ extracted)
            else
              let results := ReActAgent.execute_tool_calls tools response.tool_calls
              ReActAgent.executeFuel llm tools extract fuel
                { st with
                  messages := newMessages ++
                    (response.tool_calls.zip results).map
                      (fun p => Message.tool p.2 p.1.id)
                  iteration_count := st.iteration_count + 1
                  tool_results := aupdate st.tool_results
                    ((response.tool_calls.zip results).map
                      (fun p => (p.1.name, p.2))) }
                decisions

/-- `ReActAgent.execute`: run the loop from the given state with fresh
decision list. -/
def ReActAgent.execute (llm : ℕ → PyResult AIMsg)
    (tools : List (String × (Json → Except String String)))
    (extract : AIMsg → AgentState → PyResult (Json × List Decision))
    (st : AgentState) : PyResult (ReActResult × List Decision) :=
  ReActAgent.executeFuel llm tools extract
    (st.max_iterations + 1 - st.iteration_count) st []

/-- A ReAct agent's `run`: `BaseAgent.run` instantiated with
`ReActAgent.execute` as the `execute` body. -/
def ReActAgent.run (agent_type : AgentType) (default_system_prompt : String)
    (cfg : AgentConfig) (llm : ℕ → PyResult AIMsg)
    (tools : List (String × (Json → Except String String)))
    (extract : AIMsg → AgentState → PyResult (Json × List Decision))
    (inp : AgentInput) : PyResult (AgentOutput ReActResult) :=
  BaseAgent.run agent_type default_system_prompt cfg
    (fun st _ => ReActAgent.execute llm tools extract st) inp

/-- The fenced-candidate selection shared by `extract_result` and
`create_plan`: contents after the first ` ```json ` fence up to the next
fence, else contents between the first two ` ``` ` fences, else the full
text (`content.split("```json")[1].split("```")[0]` etc.). -/
def fencedCandidate (content : String) : String :=
  if containsSub content "```json" then
    (pySplit ((pySplit content "```json").getD 1 "") "```").getD 0 ""
  else if containsSub content "```" then
    (pySplit ((pySplit content "```").getD 1 "") "```").getD 0 ""
  else content

/-- `PlanAndExecuteAgent.create_plan` (`core/base.py` lines 427-454) given
the outcome of the planning `invoke_llm` call: fence-extract, `json.loads`,
`plan_data.get("plan", [])`; a `JSONDecodeError` degrades to the one-step
verbatim plan; a successful parse of a non-dict hits `.get` and raises
`AttributeError`. -/
def PlanAndExecuteAgent.create_plan (llmOutcome : PyResult AIMsg)
    (task : Json) : PyResult Json :=
  match llmOutcome with
  | .agentError c m => .agentError c m
  | .exn m => .exn m
  | .ok response =>
      match json_loads (fencedCandidate response.content) with
      | none =>
          .ok (.arr [.obj [("step", .num 1),
            ("action", .str "Execute task directly"), ("task", task)]])
      | some (.obj kvs) => .ok ((aget kvs "plan").getD (.arr []))
      | some _ => .exn "AttributeError: object has no attribute get"

/-! ### `implementations/strategy_analyzer.py`: result extraction -/

/-- `decision_type_map.get(value, DecisionType.HOLD)`: the four known
strings map to their kinds, any other hashable value misses and defaults to
`HOLD`, and an unhashable value (list/dict) raises `TypeError` inside
`dict.get`. -/
def decisionTypeMapGet : Json → PyResult DecisionType
  | .str "buy" => .ok .BUY
  | .str "sell" => .ok .SELL
  | .str "hold" => .ok .HOLD
  | .str "observe" => .ok .OBSERVE
  | .str _ => .ok .HOLD
  | .num _ => .ok .HOLD
  | .bool _ => .ok .HOLD
  | .null => .ok .HOLD
  | .arr _ => .exn "TypeError: unhashable type"
  | .obj _ => .exn "TypeError: unhashable type"

/-- `StrategyAnalyzerAgent.extract_result`
(`implementations/strategy_analyzer.py` lines 58-103): select the fenced
candidate, strip, strict-parse; a `JSONDecodeError` yields the
`raw_response` fallback with no decisions; a parsed object builds one
`Decision` with the documented defaults (`hold`, `0.5`, empty lists); a
parsed non-object hits `result.get` and raises `AttributeError`. -/
def StrategyAnalyzerAgent.extract_result (response : AIMsg) (st : AgentState) :
    PyResult (Json × List Decision) :=
  let content := response.content
  match json_loads (pyStrip (fencedCandidate content)) with
  | none => .ok (.obj [("raw_response", .str content)], [])
  | some (.obj kvs) =>
      match decisionTypeMapGet ((aget kvs "decision").getD (.str "hold")) with
      | .agentError c m => .agentError c m
      | .exn m => .exn m
      | .ok dt =>
          .ok (.obj kvs,
            [{ decision_type := dt,
               symbol := st.task_input.oget "symbol" (.str "UNKNOWN"),
               confidence := (aget kvs "confidence").getD (.num (0.5 : ℚ)),
               reasoning := (aget kvs "reasoning").getD (.arr []),
               risk_factors := (aget kvs "risk_factors").getD (.arr []),
               recommended_action := (aget kvs "recommended_action").getD (.str ""),
               supporting_data := st.tool_results }])
  | some _ => .exn "AttributeError: object has no attribute get"

/-! ### `tools/base.py`: `ToolRegistry` -/

/-- `ToolCategory` (string enum in `tools/base.py`). -/
inductive ToolCategory where
  | DATA_FETCH | DATA_ANALYSIS | CALCULATION | MARKET_DATA | NEWS
  | TECHNICAL | FUNDAMENTAL | RISK | NOTIFICATION | UTILITY
  deriving DecidableEq, Repr

/-- `ToolMetadata` (`tools/base.py`). -/
structure ToolMetadata where
  name : String
  description : String
  category : ToolCategory
  version : String := "1.0.0"
  author : String := ""
  tags : List String := []
  requires_api_key : Bool := false
  rate_limit : Option ℕ := none
  deriving DecidableEq, Repr

/-- A registered tool, identified (as the registry does) by its `name`
attribute; the invocable part plays no role in the registry claims. -/
structure BaseTool where
  name : String
  deriving DecidableEq, Repr

/-- The `ToolRegistry` singleton's mutable state: `_tools` and
`_metadata`, both keyed by tool name. -/
structure ToolRegistry where
  _tools : List (String × BaseTool) := []
  _metadata : List (String × ToolMetadata) := []
  deriving DecidableEq, Repr

/-- `ToolRegistry.register`: always store the tool under its name; store
metadata only when provided. -/
def ToolRegistry.register (reg : ToolRegistry) (tool : BaseTool)
    (metadata : Option ToolMetadata) : ToolRegistry :=
  { _tools := aset reg._tools tool.name tool
    _metadata :=
      match metadata with
      | some m => aset reg._metadata tool.name m
      | none => reg._metadata }

/-- `ToolRegistry.get_by_category` (`tools/base.py` lines 90-96): keep the
tools whose metadata — defaulting, for a tool with no stored metadata, to
`ToolMetadata(name, "", category)` built from the queried category itself —
has the queried category. -/
def ToolRegistry.get_by_category (reg : ToolRegistry)
    (category : ToolCategory) : List BaseTool :=
  (reg._tools.filter (fun p =>
      ((aget reg._metadata p.1).getD
          { name := p.1, description := "", category := category }).category ==
        category)).map (·.2)

/-! ### `core/factory.py`: `AgentFactory` -/

/-- An LLM instance: either one the caller passed in, or one the factory's
`llm_factory` built for a model name. -/
inductive LLMTok where
  | given (id : ℕ)
  | fromFactory (model_name : String)
  deriving DecidableEq, Repr

/-- What `agent_class(config=config, llm=llm, tools=tools)` captures: the
created agent instance. -/
structure AgentInstance where
  agent_type : AgentType
  config : AgentConfig
  llm : LLMTok
  tools : Option (List String)

/-- `AgentFactory.create` (`core/factory.py` lines 143-199): unregistered
type fails with `AGENT_NOT_FOUND`; a missing LLM with no factory fails with
`AGENT_INITIALIZATION_FAILED`; tools default through `tool_factory` when
absent but allowed by the config.  (`registered` is the agent-type
registry's key set; constructors are total in the model, so the
construction-failure wrap has no failing case.) -/
def AgentFactory.create (registered : List AgentType) (has_llm_factory : Bool)
    (has_tool_factory : Bool) (tool_factory : List String → List String)
    (atype : AgentType) (cfg : AgentConfig) (llm : Option LLMTok)
    (tools : Option (List String)) : PyResult AgentInstance :=
  if registered.contains atype then
    match llm with
    | none =>
        if has_llm_factory then
          .ok { agent_type := atype, config := cfg,
                llm := .fromFactory cfg.model_name,
                tools := resolveTools has_tool_factory tool_factory cfg tools }
        else
          .agentError AgentErrorCode.AGENT_INITIALIZATION_FAILED
            "No LLM instance or factory provided"
    | some l =>
        .ok { agent_type := atype, config := cfg, llm := l,
              tools := resolveTools has_tool_factory tool_factory cfg tools }
  else
    .agentError AgentErrorCode.AGENT_NOT_FOUND "Agent type is not registered"
where
  /-- `if tools is None and config.allowed_tools: tools = tool_factory(...)
  if tool_factory else []`. -/
  resolveTools (has_tool_factory : Bool) (tool_factory : List String → List String)
      (cfg : AgentConfig) (tools : Option (List String)) : Option (List String) :=
    match tools with
    | some t => some t
    | none =>
        if cfg.allowed_tools ≠ [] then
          some (if has_tool_factory then tool_factory cfg.allowed_tools else [])
        else none

/-- The `AgentFactory`'s mutable cache `self._instances`. -/
structure AgentFactoryState where
  _instances : List (String × AgentInstance) := []

/-- `AgentFactory.get_or_create` (`core/factory.py` lines 228-251): return
the cached instance for `config.agent_id` when present (ignoring every
other argument); otherwise create, cache under `config.agent_id`, and
return.  The second component is the factory state after the call. -/
def AgentFactory.get_or_create (registered : List AgentType)
    (has_llm_factory : Bool) (has_tool_factory : Bool)
    (tool_factory : List String → List String) (s : AgentFactoryState)
    (atype : AgentType) (cfg : AgentConfig) (llm : Option LLMTok)
    (tools : Option (List String)) : PyResult AgentInstance × AgentFactoryState :=
  match aget s._instances cfg.agent_id with
  | some a => (.ok a, s)
  | none =>
      match AgentFactory.create registered has_llm_factory has_tool_factory
          tool_factory atype cfg llm tools with
      | .ok agent =>
          (.ok agent, { _instances := aset s._instances cfg.agent_id agent })
      | .agentError c m => (.agentError c m, s)
      | .exn m => (.exn m, s)

/-! ### `workflows/engine.py`: the parallel fan-out node -/

/-- What `asyncio.gather(..., return_exceptions=True)` hands back for one
sub-agent: either the exception the handler raised, or its return value. -/
inductive SubOutcome where
  | exn (msg : String)
  | ret (v : Json)

/-- The merge loop of `parallel_executor` (`for agent_id, result in
zip(parallel_agents, results)`): an exception is recorded as a per-node
error; a dict result either folds its own `agent_outputs` into the output
map or is keyed by the agent id; a non-dict, non-exception result is
silently dropped. -/
def mergeResults :
    List (String × SubOutcome) → List (String × Json) → List (String × Json) →
      PyResult (List (String × Json) × List (String × Json))
  | [], outs, errs => .ok (outs, errs)
  | (agent_id, r) :: rest, outs, errs =>
      match r with
      | .exn msg => mergeResults rest outs (aset errs agent_id (.str msg))
      | .ret (.obj kvs) =>
          match aget kvs "agent_outputs" with
          | some (.obj inner) => mergeResults rest (aupdate outs inner) errs
          | some _ => .exn "TypeError: agent_outputs value is not a mapping"
          | none => mergeResults rest (aset outs agent_id (.obj kvs)) errs
      | .ret _ => mergeResults rest outs errs

/-- The `parallel_executor` node closed over by
`MultiAgentWorkflow.setup_parallel_then_aggregate` (`workflows/engine.py`
lines 253-290).  The node receives the raw LangGraph state dict (only the
keys currently set are present).  Handlers are gathered for the registered
agents only, yet `zip(parallel_agents, results)` pairs ALL listed agents
with the compacted result list, as in the source.  The final
`AgentState(**dict(state), agent_outputs=..., agent_errors=...)` raises
`TypeError` (duplicate keyword argument) whenever the incoming state
already carries either key. -/
def MultiAgentWorkflow.parallel_executor (parallel_agents : List String)
    (handlers : String → Option (List (String × Json) → SubOutcome))
    (state : List (String × Json)) : PyResult (List (String × Json)) :=
  let tasks := parallel_agents.filterMap
    (fun agent_id => (handlers agent_id).map (fun h => h state))
  if tasks.isEmpty then .ok state
  else
    match (aget state "agent_outputs").getD (.obj []) with
    | .obj outs0 =>
        match (aget state "agent_errors").getD (.obj []) with
        | .obj errs0 =>
            match mergeResults (parallel_agents.zip tasks) outs0 errs0 with
            | .ok (new_outputs, new_errors) =>
                if ahas state "agent_outputs" then
                  .exn "TypeError: got multiple values for keyword argument agent_outputs"
                else if ahas state "agent_errors" then
                  .exn "TypeError: got multiple values for keyword argument agent_errors"
                else
                  .ok (state ++ [("agent_outputs", .obj new_outputs),
                    ("agent_errors", .obj new_errors)])
            | .agentError c m => .agentError c m
            | .exn m => .exn m
        | _ => .exn "TypeError: dict() argument must be a mapping"
    | _ => .exn "TypeError: dict() argument must be a mapping"

/-! ### Shared concrete fixtures for witnesses and counterexamples -/

/-- A minimal valid agent configuration. -/
def cfgA : AgentConfig :=
  { agent_id := "agent-1", agent_type := .STRATEGY_ANALYZER, name := "A" }

/-- The same configuration with a zero iteration budget. -/
def cfgZeroIter : AgentConfig := { cfgA with max_iterations := 0 }

/-- A well-formed task input. -/
def inpA : AgentInput :=
  { task_id := "task-1", task_type := "analysis", content := .obj [] }

/-- A task input whose task id is the empty string. -/
def inpNoId : AgentInput :=
  { task_id := "", task_type := "analysis", content := .obj [] }

/-- An `execute` body that succeeds with an empty result. -/
def execOk : AgentState → AgentInput → PyResult (Json × List Decision) :=
  fun _ _ => .ok (.obj [], [])

/-- An `execute` body whose LLM call exhausted its retries. -/
def execLlmFail : AgentState → AgentInput → PyResult (Json × List Decision) :=
  fun _ _ =>
    .agentError AgentErrorCode.LLM_ERROR
      "LLM invocation failed after 3 attempts: connection reset"

/-- An LLM oracle that is never consulted in the scenarios using it. -/
def llmUnused : ℕ → PyResult AIMsg := fun _ => .exn "model invoked unexpectedly"

/-- The base `ReActAgent.extract_result`: `{"content": response.content}`
with no decisions. -/
def extractBase : AIMsg → AgentState → PyResult (Json × List Decision) :=
  fun response _ => .ok (.obj [("content", .str response.content)], [])

/-! ### C6 — confidence tiers -/

/-- C6: for every `Decision` whose stored confidence is the number `c`,
`confidence_level` is `very_high` iff `0.9 ≤ c`, `high` iff
`0.75 ≤ c < 0.9`, `medium` iff `0.5 ≤ c < 0.75`, `low` iff
`0.25 ≤ c < 0.5`, and `very_low` iff `c < 0.25`; each boundary lands in
the higher tier because the source compares with `>=`. -/
theorem C6_confidence_tiers (d : Decision) (c : ℚ)
    (h : d.confidence = .num c) :
    (d.confidence_level = .ok .VERY_HIGH ↔ (0.9 : ℚ) ≤ c) ∧
    (d.confidence_level = .ok .HIGH ↔ (0.75 : ℚ) ≤ c ∧ c < (0.9 : ℚ)) ∧
    (d.confidence_level = .ok .MEDIUM ↔ (0.5 : ℚ) ≤ c ∧ c < (0.75 : ℚ)) ∧
    (d.confidence_level = .ok .LOW ↔ (0.25 : ℚ) ≤ c ∧ c < (0.5 : ℚ)) ∧
    (d.confidence_level = .ok .VERY_LOW ↔ c < (0.25 : ℚ)) := by
  have hval : d.confidence_level = .ok (confidenceTier c) := by
    unfold Decision.confidence_level
    rw [h]
  rw [hval]
  unfold confidenceTier
  split_ifs with h1 h2 h3 h4 <;>
    refine ⟨?_, ?_, ?_, ?_, ?_⟩ <;> simp_all <;> first
      | linarith
      | (intros; linarith)

/-- C6 witness: the boundary value `0.9` lands in `very_high`. -/
theorem C6_confidence_tiers_witness :
    ({ decision_type := .HOLD, symbol := .str "600519",
       confidence := .num (0.9 : ℚ), reasoning := .arr [],
       risk_factors := .arr [], recommended_action := .str "" } :
        Decision).confidence_level = .ok .VERY_HIGH :=
  (C6_confidence_tiers _ (0.9 : ℚ) rfl).1.mpr (le_refl _)

/-! ### C9 — tool registry by-category query -/

/-- C9 counterexample: a tool registered with no metadata is returned by
`get_by_category` although the registry holds no metadata whose category
equals the queried one (the default metadata is built from the queried
category itself), refuting "no tool with no category recorded is
included". -/
theorem C9_counterexample :
    (ToolRegistry.register {} { name := "price_fetch" } none).get_by_category
        .MARKET_DATA = [{ name := "price_fetch" }] ∧
    (ToolRegistry.register {} { name := "price_fetch" } none)._metadata = [] := by
  constructor <;> rfl

/-- C9 amended: `get_by_category c` returns exactly the registered tools
whose registered metadata category equals `c` TOGETHER WITH every
registered tool that has no metadata recorded at all (such a tool is
treated as belonging to whichever category is queried). -/
theorem C9_get_by_category_membership (reg : ToolRegistry)
    (category : ToolCategory) (t : BaseTool) :
    t ∈ reg.get_by_category category ↔
      ∃ name, (name, t) ∈ reg._tools ∧
        ∀ m, aget reg._metadata name = some m → m.category = category := by
  unfold ToolRegistry.get_by_category
  simp only [List.mem_map, List.mem_filter]
  constructor
  · rintro ⟨⟨name, t₀⟩, ⟨hmem, hcat⟩, rfl⟩
    refine ⟨name, hmem, ?_⟩
    intro m hm
    rw [hm] at hcat
    simpa using hcat
  · rintro ⟨name, hmem, hcond⟩
    refine ⟨(name, t), ⟨hmem, ?_⟩, rfl⟩
    cases hm : aget reg._metadata name with
    | none => simp [hm]
    | some m => simp [hm, hcond m hm]

/-! ### C10 — factory cache idempotence -/

/-- Looking up the key just set in a dict returns the value set. -/
theorem aget_aset_self {α : Type} (d : List (String × α)) (k : String)
    (v : α) : aget (aset d k v) k = some v := by
  induction d with
  | nil => simp [aset, aget, List.find?]
  | cons p rest ih =>
      rcases p with ⟨k₀, v₀⟩
      by_cases h : (k₀ == k) = true
      · simp [aset, h, aget, List.find?]
      · simp only [aset, h, if_false, Bool.false_eq_true]
        simpa [aget, List.find?, h] using ih

/-- C10: once `get_or_create` has returned (and cached) an instance for a
config's `agent_id`, any later `get_or_create` call whose config carries
the same `agent_id` returns that exact instance and leaves the cache
unchanged, whatever agent type, config fields, llm, tools, or factory
wiring the later call passes. -/
theorem C10_get_or_create_cached (registered registered₂ : List AgentType)
    (hlf hlf₂ htf htf₂ : Bool) (tf tf₂ : List String → List String)
    (s s₂ : AgentFactoryState) (atype atype₂ : AgentType)
    (cfg cfg₂ : AgentConfig) (llm llm₂ : Option LLMTok)
    (tools tools₂ : Option (List String)) (agent : AgentInstance)
    (hfirst : AgentFactory.get_or_create registered hlf htf tf s atype cfg llm
        tools = (.ok agent, s₂))
    (hid : cfg₂.agent_id = cfg.agent_id) :
    AgentFactory.get_or_create registered₂ hlf₂ htf₂ tf₂ s₂ atype₂ cfg₂ llm₂
        tools₂ = (.ok agent, s₂) := by
  unfold AgentFactory.get_or_create at hfirst ⊢
  rw [hid]
  cases hc : aget s._instances cfg.agent_id with
  | some a =>
      simp only [hc] at hfirst
      rw [Prod.mk.injEq] at hfirst
      obtain ⟨h₁, h₂⟩ := hfirst
      subst h₂
      rw [hc]
      simp_all
  | none =>
      simp only [hc] at hfirst
      cases hcr : AgentFactory.create registered hlf htf tf atype cfg llm
          tools with
      | ok a₂ =>
          simp only [hcr] at hfirst
          rw [Prod.mk.injEq] at hfirst
          obtain ⟨h₁, h₂⟩ := hfirst
          subst h₂
          dsimp only
          rw [aget_aset_self]
          simp_all
      | agentError c m => simp only [hcr] at hfirst; simp_all
      | exn m => simp only [hcr] at hfirst; simp_all

/-- First-call fixture for the C10 witness: the instance the factory
creates and caches for agent id `"cached-1"`. -/
def cachedCfg : AgentConfig :=
  { agent_id := "cached-1", agent_type := .STRATEGY_ANALYZER, name := "A" }

/-- A later config reusing the same agent id with different fields. -/
def cachedCfgLater : AgentConfig :=
  { agent_id := "cached-1", agent_type := .RISK_ASSESSOR, name := "B",
    model_name := "other-model", max_retries := 9 }

/-- The instance created on the first call. -/
def cachedInst : AgentInstance :=
  { agent_type := .STRATEGY_ANALYZER, config := cachedCfg, llm := .given 0,
    tools := none }

/-- The factory cache after the first call. -/
def cachedFactoryState : AgentFactoryState :=
  { _instances := [("cached-1", cachedInst)] }

/-- C10 witness: a concrete first call creates and caches an instance, and
a second call with the same agent id but different type, config fields,
llm and tools returns the exact cached instance with the cache unchanged. -/
theorem C10_get_or_create_cached_witness :
    AgentFactory.get_or_create [.STRATEGY_ANALYZER] true false (fun _ => [])
        { } .STRATEGY_ANALYZER cachedCfg (some (.given 0)) none =
      (.ok cachedInst, cachedFactoryState) ∧
    AgentFactory.get_or_create [] false true (fun l => l) cachedFactoryState
        .RISK_ASSESSOR cachedCfgLater none (some ["t1"]) =
      (.ok cachedInst, cachedFactoryState) :=
  ⟨rfl,
    C10_get_or_create_cached [.STRATEGY_ANALYZER] [] true false false true
      (fun _ => []) (fun l => l) { } cachedFactoryState .STRATEGY_ANALYZER
      .RISK_ASSESSOR cachedCfg cachedCfgLater (some (.given 0)) none none
      (some ["t1"]) cachedInst rfl rfl⟩

/-! ### C1 — `run` never throws? -/

/-- C1 counterexample: with a valid config and a well-formed task input,
an `execute` body that fails with a typed `AgentError` (here the LLM
retry-exhaustion error) makes `run` re-raise the `AgentError` past its
boundary instead of returning a structured output, because of
`except AgentError: raise`. -/
theorem C1_counterexample :
    BaseAgent.run .STRATEGY_ANALYZER "" cfgA execLlmFail inpA =
      .agentError AgentErrorCode.LLM_ERROR
        "LLM invocation failed after 3 attempts: connection reset" := rfl

/-- C1 amended: `run` never lets a plain (non-`AgentError`) exception
escape: every run either returns one structured output whose status is
`Completed` or `Failed`, or re-raises a typed `AgentError` (`LLMError`,
`ToolExecutionFailed`, `MaxIterationsExceeded`, `InvalidInput`, ...),
which does propagate to the caller. -/
theorem C1_run_structured_or_agent_error {ρ : Type} (agent_type : AgentType)
    (dsp : String) (cfg : AgentConfig)
    (execute : AgentState → AgentInput → PyResult (ρ × List Decision))
    (inp : AgentInput) :
    (∃ out, BaseAgent.run agent_type dsp cfg execute inp = .ok out ∧
        (out.status = .COMPLETED ∨ out.status = .FAILED)) ∨
    (∃ c m, BaseAgent.run agent_type dsp cfg execute inp = .agentError c m) := by
  unfold BaseAgent.run
  by_cases h : inp.task_id = ""
  · right
    refine ⟨AgentErrorCode.INVALID_INPUT, "Task ID is required", ?_⟩
    simp [h]
  · cases hE : execute (BaseAgent.prepare_initial_state cfg dsp inp) inp with
    | ok pr =>
        obtain ⟨r, ds⟩ := pr
        left
        refine ⟨{ task_id := inp.task_id
                  agent_id := cfg.agent_id
                  agent_type := agent_type
                  status := .COMPLETED
                  result := some r
                  decisions := ds
                  error := none }, ?_, Or.inl rfl⟩
        simp [h, hE]
    | agentError c m =>
        right
        refine ⟨c, m, ?_⟩
        simp [h, hE]
    | exn m =>
        left
        refine ⟨{ task_id := inp.task_id
                  agent_id := cfg.agent_id
                  agent_type := agent_type
                  status := .FAILED
                  result := none
                  decisions := []
                  error := some m }, ?_, Or.inr rfl⟩
        simp [h, hE]

/-! ### C4 — empty task id validation -/

/-- C4 counterexample: for the empty task id, the `InvalidInput`
`AgentError` raised by `_validate_input` is re-raised past `run`
(`except AgentError: raise`), not delivered as a `Failed`-status output. -/
theorem C4_counterexample :
    BaseAgent.run .STRATEGY_ANALYZER "" cfgA execOk inpNoId =
      .agentError AgentErrorCode.INVALID_INPUT "Task ID is required" := rfl

/-- C4 amended: provided the `execute` body itself never raises an
`InvalidInput` `AgentError`, `run` fails with `InvalidInput` iff the
input's task id is the empty string; the failure is the raised
`AgentError` `"Task ID is required"` propagating out of `run`, not a
`Failed`-status structured output. -/
theorem C4_invalid_input_iff {ρ : Type} (agent_type : AgentType)
    (dsp : String) (cfg : AgentConfig)
    (execute : AgentState → AgentInput → PyResult (ρ × List Decision))
    (inp : AgentInput)
    (hexec : ∀ st m, execute st inp ≠
        .agentError AgentErrorCode.INVALID_INPUT m) :
    ((∃ m, BaseAgent.run agent_type dsp cfg execute inp =
        .agentError AgentErrorCode.INVALID_INPUT m) ↔ inp.task_id = "") ∧
    (inp.task_id = "" →
        BaseAgent.run agent_type dsp cfg execute inp =
          .agentError AgentErrorCode.INVALID_INPUT "Task ID is required") := by
  have hback : inp.task_id = "" →
      BaseAgent.run agent_type dsp cfg execute inp =
        .agentError AgentErrorCode.INVALID_INPUT "Task ID is required" := by
    intro h
    unfold BaseAgent.run
    simp [h]
  refine ⟨⟨?_, fun h => ⟨_, hback h⟩⟩, hback⟩
  rintro ⟨m, hm⟩
  by_contra h
  unfold BaseAgent.run at hm
  cases hE : execute (BaseAgent.prepare_initial_state cfg dsp inp) inp with
  | ok pr =>
      obtain ⟨r, ds⟩ := pr
      simp [h, hE] at hm
  | agentError c m₂ =>
      simp [h, hE] at hm
      exact hexec _ m₂ (by rw [hE, hm.1])
  | exn m₂ =>
      simp [h, hE] at hm

/-- C4 witness: the concrete empty-id input makes `run` raise the
`InvalidInput` `AgentError`. -/
theorem C4_invalid_input_iff_witness :
    BaseAgent.run .STRATEGY_ANALYZER "" cfgA execOk inpNoId =
      .agentError AgentErrorCode.INVALID_INPUT "Task ID is required" :=
  (C4_invalid_input_iff .STRATEGY_ANALYZER "" cfgA execOk inpNoId
    (fun _ _ hcontra => by simp [execOk] at hcontra)).2 rfl

/-! ### C7 — LLM retry with exponential backoff -/

/-- The retry loop's outcome depends only on the model-call outcomes at
the attempt indices it can reach. -/
theorem invokeLlmGo_congr (a a₂ : ℕ → Except String AIMsg) (mr : ℕ) :
    ∀ fuel attempt le, (∀ j, attempt ≤ j → j < attempt + fuel → a j = a₂ j) →
      invokeLlmGo a mr attempt fuel le = invokeLlmGo a₂ mr attempt fuel le := by
  intro fuel
  induction fuel with
  | zero => intro attempt le _; rfl
  | succ n ih =>
      intro attempt le hagree
      have ha : a attempt = a₂ attempt := hagree attempt (le_refl _) (by omega)
      conv_lhs => rw [invokeLlmGo]
      conv_rhs => rw [invokeLlmGo]
      rw [ha]
      cases h₂ : a₂ attempt with
      | ok r => rfl
      | error e =>
          dsimp only
          rw [ih (attempt + 1) (some e)
            (fun j h1 h2 => hagree j (by omega) (by omega))]

/-- If every attempt before `m` fails and attempt `m` succeeds, the loop
returns the successful response after exactly the backoff sleeps
`(2 ^ k) * 0.5` for the failed attempts `k`. -/
theorem invokeLlmGo_success (a : ℕ → Except String AIMsg) (mr m : ℕ)
    (r : AIMsg) (hm : a m = .ok r) (hmlt : m < mr) :
    ∀ fuel attempt le, attempt + fuel = mr → attempt ≤ m →
      (∀ j, attempt ≤ j → j < m → ∃ e, a j = .error e) →
      invokeLlmGo a mr attempt fuel le =
        (.ok r, (List.range' attempt (m - attempt)).map
          (fun k => (2 : ℚ) ^ k * (0.5 : ℚ))) := by
  intro fuel
  induction fuel with
  | zero => intro attempt le hsum hle hfail; omega
  | succ n ih =>
      intro attempt le hsum hle hfail
      by_cases hcase : attempt = m
      · subst hcase
        simp [invokeLlmGo, hm]
      · have hlt : attempt < m := lt_of_le_of_ne hle hcase
        obtain ⟨e, he⟩ := hfail attempt (le_refl _) hlt
        have hcond : attempt < mr - 1 := by omega
        conv_lhs => rw [invokeLlmGo]
        rw [he]
        dsimp only
        rw [ih (attempt + 1) (some e) (by omega) (by omega)
          (fun j h1 h2 => hfail j (by omega) h2)]
        simp only [hcond, if_true]
        rw [show m - attempt = (m - (attempt + 1)) + 1 by omega,
          List.range'_succ]
        simp

/-- If every reachable attempt fails, the loop raises `LLMError` wrapping
the last attempt's error, after the backoff sleeps for every failed
attempt except the last. -/
theorem invokeLlmGo_allfail (a : ℕ → Except String AIMsg) (mr : ℕ)
    (f : ℕ → String) (hfail : ∀ j, j < mr → a j = .error (f j)) :
    ∀ fuel attempt le, attempt + fuel = mr → 1 ≤ fuel →
      invokeLlmGo a mr attempt fuel le =
        (.agentError AgentErrorCode.LLM_ERROR
            ("LLM invocation failed after " ++ toString mr ++ " attempts: " ++
              f (mr - 1)),
          (List.range' attempt (fuel - 1)).map
            (fun k => (2 : ℚ) ^ k * (0.5 : ℚ))) := by
  intro fuel
  induction fuel with
  | zero => intro attempt le hsum hpos; omega
  | succ n ih =>
      intro attempt le hsum hpos
      have he : a attempt = .error (f attempt) := hfail attempt (by omega)
      cases n with
      | zero =>
          have hlast : attempt = mr - 1 := by omega
          have hnot : ¬ attempt < mr - 1 := by omega
          conv_lhs => rw [invokeLlmGo]
          rw [he]
          dsimp only
          simp only [hnot, if_false, invokeLlmGo]
          rw [hlast]
          simp
      | succ k =>
          have hcond : attempt < mr - 1 := by omega
          conv_lhs => rw [invokeLlmGo]
          rw [he]
          dsimp only
          rw [ih (attempt + 1) (some (f attempt)) (by omega) (by omega)]
          simp only [hcond, if_true]
          rw [show (k + 1 + 1) - 1 = ((k + 1) - 1) + 1 by omega,
            List.range'_succ]
          simp

/-- C7: the language-model invocation helper (a) consults the model at
attempt indices below `max_retries` only — so at most `max_retries`
attempts are made; (b) when the first `m` attempts fail and attempt `m`
succeeds, its response is returned and the recorded backoff delay before
the k-th retry (retries counted from 0) is `(2 ^ k) * 0.5` seconds;
(c) when every attempt fails, it raises `LLMError` wrapping the last
underlying error, having slept `(2 ^ k) * 0.5` after each failed attempt
except the last. -/
theorem C7_invoke_llm_retry (ainvoke ainvoke₂ : ℕ → Except String AIMsg)
    (max_retries : ℕ) :
    ((∀ j, j < max_retries → ainvoke j = ainvoke₂ j) →
        BaseAgent.invoke_llm ainvoke max_retries =
          BaseAgent.invoke_llm ainvoke₂ max_retries) ∧
    (∀ m r, m < max_retries → (∀ j, j < m → ∃ e, ainvoke j = .error e) →
        ainvoke m = .ok r →
        BaseAgent.invoke_llm ainvoke max_retries =
          (.ok r, (List.range m).map (fun k => (2 : ℚ) ^ k * (0.5 : ℚ)))) ∧
    (∀ f : ℕ → String, (∀ j, j < max_retries → ainvoke j = .error (f j)) →
        1 ≤ max_retries →
        BaseAgent.invoke_llm ainvoke max_retries =
          (.agentError AgentErrorCode.LLM_ERROR
              ("LLM invocation failed after " ++ toString max_retries ++
                " attempts: " ++ f (max_retries - 1)),
            (List.range (max_retries - 1)).map
              (fun k => (2 : ℚ) ^ k * (0.5 : ℚ)))) := by
  refine ⟨?_, ?_, ?_⟩
  · intro hagree
    unfold BaseAgent.invoke_llm
    exact invokeLlmGo_congr ainvoke ainvoke₂ max_retries max_retries 0 none
      (fun j h1 h2 => hagree j (by omega))
  · intro m r hmlt hfail hm
    unfold BaseAgent.invoke_llm
    rw [invokeLlmGo_success ainvoke max_retries m r hm hmlt max_retries 0 none
      (by omega) (by omega) (fun j h1 h2 => hfail j h2)]
    rw [List.range_eq_range']
    simp
  · intro f hfail hpos
    unfold BaseAgent.invoke_llm
    rw [invokeLlmGo_allfail ainvoke max_retries f hfail max_retries 0 none
      (by omega) hpos]
    rw [List.range_eq_range']

/-- A model oracle failing once, then succeeding. -/
def oracleRetry : ℕ → Except String AIMsg :=
  fun n => if n = 0 then .error "boom" else .ok { content := "done" }

/-- C7 witness: with `max_retries = 2` and a first-attempt failure, the
helper sleeps `(2 ^ 0) * 0.5` once and returns the second attempt's
response. -/
theorem C7_invoke_llm_retry_witness :
    BaseAgent.invoke_llm oracleRetry 2 =
      (.ok { content := "done" },
        (List.range 1).map (fun k => (2 : ℚ) ^ k * (0.5 : ℚ))) :=
  (C7_invoke_llm_retry oracleRetry oracleRetry 2).2.1 1 { content := "done" }
    (by omega)
    (fun j hj => ⟨"boom", by interval_cases j; rfl⟩) rfl

/-! ### C8 — plan creation never hard-fails? -/

/-- C8 counterexample: a planning response parsing to `{"plan": []}`
yields an EMPTY plan (not the claimed non-empty degraded plan), and a
response parsing to valid non-object JSON (`[1]`) makes plan creation
raise `AttributeError` (only `json.JSONDecodeError` is caught). -/
theorem C8_counterexample :
    PlanAndExecuteAgent.create_plan (.ok { content := "\x7b\"plan\": []\x7d" })
        (.str "the task") = .ok (.arr []) ∧
    PlanAndExecuteAgent.create_plan (.ok { content := "[1]" })
        (.str "the task") =
      .exn "AttributeError: object has no attribute get" := by
  constructor <;> rfl

/-- C8 amended: a JSON-decode failure of the planning response degrades to
the non-empty single-step plan executing the task verbatim; a response
parsing to an object yields that object's `plan` field with the empty list
as default — so the returned plan MAY be empty; and a response parsing to
valid non-object JSON raises an uncaught `AttributeError`. -/
theorem C8_create_plan_cases (response : AIMsg) (task : Json) :
    (json_loads (fencedCandidate response.content) = none →
        PlanAndExecuteAgent.create_plan (.ok response) task =
          .ok (.arr [.obj [("step", .num 1),
            ("action", .str "Execute task directly"), ("task", task)]])) ∧
    (∀ kvs, json_loads (fencedCandidate response.content) = some (.obj kvs) →
        PlanAndExecuteAgent.create_plan (.ok response) task =
          .ok ((aget kvs "plan").getD (.arr []))) ∧
    (∀ j, json_loads (fencedCandidate response.content) = some j →
        (∀ kvs, j ≠ .obj kvs) →
        PlanAndExecuteAgent.create_plan (.ok response) task =
          .exn "AttributeError: object has no attribute get") := by
  refine ⟨?_, ?_, ?_⟩
  · intro h
    simp only [PlanAndExecuteAgent.create_plan]
    rw [h]
  · intro kvs h
    simp only [PlanAndExecuteAgent.create_plan]
    rw [h]
  · intro j h hno
    simp only [PlanAndExecuteAgent.create_plan]
    rw [h]
    cases j with
    | obj kvs => exact absurd rfl (hno kvs)
    | null => rfl
    | bool b => rfl
    | num q => rfl
    | str s => rfl
    | arr xs => rfl

/-- C8 witness: a response that is not JSON at all degrades to the
single-step verbatim plan. -/
theorem C8_create_plan_cases_witness :
    json_loads (fencedCandidate "no plan here") = none ∧
    PlanAndExecuteAgent.create_plan (.ok { content := "no plan here" })
        (.str "t") =
      .ok (.arr [.obj [("step", .num 1),
        ("action", .str "Execute task directly"), ("task", .str "t")]]) :=
  ⟨rfl, (C8_create_plan_cases { content := "no plan here" } (.str "t")).1 rfl⟩

/-! ### C5 — strategy analyzer extraction -/

/-- An agent state fixture for extraction scenarios. -/
def stExtract : AgentState :=
  { messages := []
    task_id := "task-1"
    task_type := "analysis"
    task_input := .obj [("symbol", .str "600519")]
    current_agent := "agent-1"
    iteration_count := 0
    max_iterations := 10
    should_end := false }

/-- C5 counterexample: `"[]"` parses successfully (strict JSON) with both
the decision kind and the confidence missing, yet extraction raises an
uncaught `AttributeError` instead of applying the documented
`hold` / `0.5` defaults. -/
theorem C5_counterexample :
    StrategyAnalyzerAgent.extract_result { content := "[]" } stExtract =
      .exn "AttributeError: object has no attribute get" := rfl

/-- C5 amended: with no fence markers the candidate is the full text; a
parse failure of the (stripped) candidate returns the
`{raw_response: text}` fallback with zero decisions; a parse succeeding
with an OBJECT builds one decision whose missing kind defaults to `hold`
and missing confidence to `0.5`; but a parse succeeding with a non-object
value raises an uncaught `AttributeError`. -/
theorem C5_extract_result_cases (response : AIMsg) (st : AgentState) :
    (containsSub response.content "```json" = false →
        containsSub response.content "```" = false →
        fencedCandidate response.content = response.content) ∧
    (json_loads (pyStrip (fencedCandidate response.content)) = none →
        StrategyAnalyzerAgent.extract_result response st =
          .ok (.obj [("raw_response", .str response.content)], [])) ∧
    (∀ kvs,
        json_loads (pyStrip (fencedCandidate response.content)) = some (.obj kvs) →
        aget kvs "decision" = none → aget kvs "confidence" = none →
        ∃ d, StrategyAnalyzerAgent.extract_result response st =
            .ok (.obj kvs, [d]) ∧
          d.decision_type = .HOLD ∧ d.confidence = .num (0.5 : ℚ)) ∧
    (∀ j, json_loads (pyStrip (fencedCandidate response.content)) = some j →
        (∀ kvs, j ≠ .obj kvs) →
        StrategyAnalyzerAgent.extract_result response st =
          .exn "AttributeError: object has no attribute get") := by
  refine ⟨?_, ?_, ?_, ?_⟩
  · intro h1 h2
    unfold fencedCandidate
    simp [h1, h2]
  · intro h
    simp only [StrategyAnalyzerAgent.extract_result]
    rw [h]
  · intro kvs h hdec hconf
    refine ⟨{ decision_type := .HOLD
              symbol := st.task_input.oget "symbol" (.str "UNKNOWN")
              confidence := .num (0.5 : ℚ)
              reasoning := (aget kvs "reasoning").getD (.arr [])
              risk_factors := (aget kvs "risk_factors").getD (.arr [])
              supporting_data := st.tool_results
              recommended_action :=
                (aget kvs "recommended_action").getD (.str "") },
      ?_, rfl, rfl⟩
    simp only [StrategyAnalyzerAgent.extract_result]
    rw [h]
    dsimp only
    rw [hdec, hconf]
    rfl
  · intro j h hno
    simp only [StrategyAnalyzerAgent.extract_result]
    rw [h]
    cases j with
    | obj kvs => exact absurd rfl (hno kvs)
    | null => rfl
    | bool b => rfl
    | num q => rfl
    | str s => rfl
    | arr xs => rfl

/-- C5 witness: the bare object `{}` takes both defaults. -/
theorem C5_extract_result_cases_witness :
    json_loads (pyStrip (fencedCandidate "\x7b\x7d")) = some (.obj []) ∧
    ∃ d, StrategyAnalyzerAgent.extract_result { content := "\x7b\x7d" }
        stExtract = .ok (.obj [], [d]) ∧
      d.decision_type = .HOLD ∧ d.confidence = .num (0.5 : ℚ) :=
  ⟨rfl, (C5_extract_result_cases { content := "\x7b\x7d" } stExtract).2.2.1 []
    rfl rfl rfl⟩

/-! ### C3 — ReAct iteration bound -/

/-- Along the ReAct loop, a normally returned result's iteration count
never exceeds the state's `max_iterations`, whatever fuel remains. -/
theorem executeFuel_ok_bound (llm : ℕ → PyResult AIMsg)
    (tools : List (String × (Json → Except String String)))
    (extract : AIMsg → AgentState → PyResult (Json × List Decision)) :
    ∀ fuel (st : AgentState) ds res ds₂,
      st.iteration_count ≤ st.max_iterations →
      ReActAgent.executeFuel llm tools extract fuel st ds = .ok (res, ds₂) →
      res.iteration_count ≤ st.max_iterations := by
  intro fuel
  induction fuel with
  | zero =>
      intro st ds res ds₂ h hok
      simp [ReActAgent.executeFuel] at hok
  | succ n ih =>
      intro st ds res ds₂ h hok
      rw [ReActAgent.executeFuel] at hok
      by_cases hse : st.should_end
      · simp only [hse, if_true] at hok
        simp only [PyResult.ok.injEq, Prod.mk.injEq] at hok
        rw [← hok.1]
        exact h
      · simp only [hse, if_false] at hok
        by_cases hguard : st.max_iterations ≤ st.iteration_count
        · simp [hguard] at hok
        · simp only [hguard, if_false] at hok
          have hlt : st.iteration_count < st.max_iterations := by omega
          cases hllm : llm st.iteration_count with
          | agentError c m => rw [hllm] at hok; simp at hok
          | exn m => rw [hllm] at hok; simp at hok
          | ok response =>
              rw [hllm] at hok
              dsimp only at hok
              by_cases hemp : response.tool_calls.isEmpty
              · simp only [hemp, if_true] at hok
                cases hext : extract response st with
                | agentError c m => rw [hext] at hok; simp at hok
                | exn m => rw [hext] at hok; simp at hok
                | ok pr =>
                    rw [hext] at hok
                    obtain ⟨r, ds₃⟩ := pr
                    dsimp only at hok
                    have := ih _ _ res ds₂ (by simp; omega) hok
                    simpa using this
              · simp only [hemp, if_false] at hok
                have := ih _ _ res ds₂ (by simp; omega) hok
                simpa using this

/-- C3 amended: (a) the `iteration_count` carried in a ReAct loop's normal
result never exceeds the state's configured `max_iterations`; (b) starting
an iteration with the count at or past the max and no terminal extraction
raises `MaxIterationsExceeded`; (c) the wrapping `run` does NOT convert an
`AgentError` raised by the loop into a `Failed` output — it re-raises it
to the caller. -/
theorem C3_iteration_bound (llm : ℕ → PyResult AIMsg)
    (tools : List (String × (Json → Except String String)))
    (extract : AIMsg → AgentState → PyResult (Json × List Decision))
    (st : AgentState) (h : st.iteration_count ≤ st.max_iterations) :
    (∀ res ds, ReActAgent.execute llm tools extract st = .ok (res, ds) →
        res.iteration_count ≤ st.max_iterations) ∧
    (st.should_end = false → st.max_iterations ≤ st.iteration_count →
        ReActAgent.execute llm tools extract st =
          .agentError AgentErrorCode.MAX_ITERATIONS_EXCEEDED
            ("Max iterations (" ++ toString st.max_iterations ++
              ") exceeded")) ∧
    (∀ agent_type dsp cfg inp c m, inp.task_id ≠ "" →
        ReActAgent.execute llm tools extract
            (BaseAgent.prepare_initial_state cfg dsp inp) = .agentError c m →
        ReActAgent.run agent_type dsp cfg llm tools extract inp =
          .agentError c m) := by
  refine ⟨?_, ?_, ?_⟩
  · intro res ds hok
    exact executeFuel_ok_bound llm tools extract _ st [] res ds h hok
  · intro hse hge
    unfold ReActAgent.execute
    rw [show st.max_iterations + 1 - st.iteration_count = 1 by omega]
    rw [ReActAgent.executeFuel]
    simp [hse, hge]
  · intro agent_type dsp cfg inp c m hne hexec
    unfold ReActAgent.run BaseAgent.run
    simp only [hne, if_false]
    rw [hexec]

/-- C3 counterexample: with `max_iterations = 0` the loop raises
`MaxIterationsExceeded`, and the wrapping `run` re-raises that
`AgentError` instead of converting it into a `Failed`-status output. -/
theorem C3_counterexample :
    ReActAgent.run .STRATEGY_ANALYZER "" cfgZeroIter llmUnused [] extractBase
        inpA =
      .agentError AgentErrorCode.MAX_ITERATIONS_EXCEEDED
        "Max iterations (0) exceeded" := rfl

/-- A loop state that begins at its (zero) iteration budget. -/
def stAtCap : AgentState :=
  { messages := []
    task_id := "task-1"
    task_type := "analysis"
    task_input := .obj []
    current_agent := "agent-1"
    iteration_count := 0
    max_iterations := 0
    should_end := false }

/-- C3 witness: the guard fires at the concrete state whose iteration
count equals its zero budget. -/
theorem C3_iteration_bound_witness :
    ReActAgent.execute llmUnused [] extractBase stAtCap =
      .agentError AgentErrorCode.MAX_ITERATIONS_EXCEEDED
        "Max iterations (0) exceeded" :=
  (C3_iteration_bound llmUnused [] extractBase stAtCap (le_refl 0)).2.1 rfl
    (le_refl 0)

/-! ### C2 — parallel fan-out merge -/

/-- Three sub-agent handlers: `"a"` and `"c"` return plain result dicts,
`"b"` raises. -/
def wfHandlers : String → Option (List (String × Json) → SubOutcome) :=
  fun agent_id =>
    if agent_id = "a" then some (fun _ => .ret (.obj [("score", .num 1)]))
    else if agent_id = "b" then some (fun _ => .exn "boom")
    else if agent_id = "c" then some (fun _ => .ret (.obj [("score", .num 2)]))
    else none

/-- C2: over 3 sub-agents with exactly one raising handler, the fan-out
node DOES merge two per-node outputs and one per-node error keyed by the
failing agent — but only when the incoming state carries neither an
`agent_outputs` nor an `agent_errors` key.  On any state that already
carries one (as every state prepared by `BaseAgent` and every
spec-conformant SharedState does), the final
`AgentState(**dict(state), agent_outputs=..., agent_errors=...)` raises a
duplicate-keyword-argument `TypeError`, aborting the run instead of
merging. -/
theorem C2_parallel_merge_bug :
    MultiAgentWorkflow.parallel_executor ["a", "b", "c"] wfHandlers
        [("task_id", .str "t1"), ("agent_outputs", .obj []),
          ("agent_errors", .obj [])] =
      .exn "TypeError: got multiple values for keyword argument agent_outputs" ∧
    MultiAgentWorkflow.parallel_executor ["a", "b", "c"] wfHandlers
        [("task_id", .str "t1")] =
      .ok [("task_id", .str "t1"),
        ("agent_outputs", .obj [("a", .obj [("score", .num 1)]),
          ("c", .obj [("score", .num 2)])]),
        ("agent_errors", .obj [("b", .str "boom")])] := by
  constructor <;> rfl
